import Mathlib

/-!
Shallow embedding of the cache and aggregation core of the
`fackorganisering` repository (Streamlit + MongoDB organizational
directory), covering:

* `views/cache_manager.py` — `load_base_data`, `create_indexes`,
  `get_cached_data`, `refresh_cache`, `update_cache_after_change`;
* `views/manage_units.py` — `calculate_member_counts` and the
  mutation handlers of `show`;
* `views/manage_workplaces.py` — the membership-count update handler;
* `app.py` — the sidebar data-refresh button.

MongoDB documents are modelled as Lean structures carrying exactly the
fields the core reads or writes; dynamically-typed nested membership
maps are modelled by the `BVal` type of BSON-like values.  Store
reads/writes are made explicit by threading a database value and
counting accesses; Python exceptions (`TypeError`, a raised store
read, attribute access on a missing session key) are modelled with
`Except String`.
-/

namespace Fack

/-- BSON-like dynamic value, as stored in the untyped membership maps
(`medlemmar_per_enhet`, `medlemmar_per_forvaltning`) of a workplace
document.  `dict` keeps entries in insertion order, as Python dicts do. -/
inductive BVal where
  | num (n : Int)
  | str (s : String)
  | dict (entries : List (String × BVal))
  | null
deriving Repr

/-- Division document (`forvaltningar` collection): only the fields the
core reads (`_id`, `beraknat_medlemsantal`; the latter may be absent). -/
structure Forvaltning where
  oid : String
  beraknat_medlemsantal : Option Int
deriving Repr, DecidableEq

/-- Department document (`avdelningar` collection). -/
structure Avdelning where
  oid : String
  forvaltning_id : String
  beraknat_medlemsantal : Option Int
deriving Repr, DecidableEq

/-- Unit document (`enheter` collection). -/
structure Enhet where
  oid : String
  avdelning_id : String
  beraknat_medlemsantal : Option Int
deriving Repr, DecidableEq

/-- Workplace document (`arbetsplatser` collection).  `alla_forvaltningar`
distinguishes Shared (regional) from Dedicated workplaces;
`forvaltning_id` is `none` for Shared ones.  The two membership maps are
kept as raw `BVal`s because the source shape-sniffs them at run time. -/
structure Arbetsplats where
  oid : String
  namn : String
  alla_forvaltningar : Bool
  forvaltning_id : Option String
  medlemsantal : Int
  medlemmar_per_enhet : Option BVal
  medlemmar_per_forvaltning : Option BVal
deriving Repr

/-- Person document (`personer` collection): the cache layer reads
`forvaltning_id` and the list `arbetsplats` of workplace names. -/
structure Person where
  oid : String
  forvaltning_id : String
  arbetsplats : List String
deriving Repr, DecidableEq

/-- Board document (`boards` collection). -/
structure Board where
  oid : String
  forvaltning_id : String
deriving Repr, DecidableEq

/-- The six Store collections (the MongoDB database `db`). -/
structure DB where
  forvaltningar : List Forvaltning
  avdelningar : List Avdelning
  enheter : List Enhet
  arbetsplatser : List Arbetsplats
  personer : List Person
  boards : List Board
deriving Repr

/-- The slice of `st.session_state` used by the aggregation engine:
the `needs_recalculation` key, absent in a fresh session
(`st.session_state.get('needs_recalculation', True)` then yields `True`). -/
structure Session where
  needs_recalculation : Option Bool
deriving Repr, DecidableEq

/-- Python `total_members += v` where `v` came out of an untyped map:
adds when `v` is numeric, raises `TypeError` otherwise. -/
def pyAdd (acc : Int) (v : BVal) : Except String Int :=
  match v with
  | .num n => .ok (acc + n)
  | _ => .error "TypeError"

/-- Contribution of one Dedicated workplace to one unit
(`manage_units.py` lines 72–76): take `medlemmar_per_enhet` defaulting to
`{}`, skip unless it is a dict, then `.get(enhet_id, 0)`. -/
def addDedicated (acc : Int) (ap : Arbetsplats) (enhetId : String) :
    Except String Int :=
  match ap.medlemmar_per_enhet.getD (BVal.dict []) with
  | BVal.dict entries =>
      match entries.lookup enhetId with
      | some v => pyAdd acc v
      | none => .ok acc
  | _ => .ok acc

/-- Contribution of one division entry of a Shared workplace's
`medlemmar_per_forvaltning` map (`manage_units.py` lines 81–85). -/
def addSharedEntry (acc : Int) (forvData : BVal) (enhetId : String) :
    Except String Int :=
  match forvData with
  | BVal.dict d =>
      match d.lookup "enheter" with
      | some (BVal.dict ed) =>
          match ed.lookup enhetId with
          | some v => pyAdd acc v
          | none => .ok acc
      | some _ => .ok acc
      | none => .ok acc
  | _ => .ok acc

/-- Contribution of one Shared workplace to one unit
(`manage_units.py` lines 78–85). -/
def addShared (acc : Int) (ap : Arbetsplats) (enhetId : String) :
    Except String Int :=
  match ap.medlemmar_per_forvaltning.getD (BVal.dict []) with
  | BVal.dict forvEntries =>
      forvEntries.foldlM (fun a p => addSharedEntry a p.2 enhetId) acc
  | _ => .ok acc

/-- `total_members` accumulated over all workplaces for one unit
(`manage_units.py` lines 67–85). -/
def enhetTotal (arbetsplatser : List Arbetsplats) (enhetId : String) :
    Except String Int :=
  arbetsplatser.foldlM
    (fun acc ap =>
      if ap.alla_forvaltningar = false then addDedicated acc ap enhetId
      else addShared acc ap enhetId)
    0

/-- Unit pass of `calculate_member_counts` (lines 66–99): compute each
unit's total and batch-write `beraknat_medlemsantal`.  The batch is
built in full before `bulk_write`, so a `TypeError` while summing
aborts the run with no unit written. -/
def unitPass (arbetsplatser : List Arbetsplats) (enheter : List Enhet) :
    Except String (List Enhet) :=
  enheter.mapM (fun e => do
    let t ← enhetTotal arbetsplatser e.oid
    pure { e with beraknat_medlemsantal := some t })

/-- Department pass (lines 104–122): re-read units, sum
`beraknat_medlemsantal` (default 0) of units whose `avdelning_id`
matches, batch-write. -/
def deptPass (enheter : List Enhet) (avdelningar : List Avdelning) :
    List Avdelning :=
  avdelningar.map (fun a =>
    { a with
      beraknat_medlemsantal := some (((enheter.filter
        (fun e => e.avdelning_id = a.oid)).map
        (fun e => e.beraknat_medlemsantal.getD 0)).sum) })

/-- Division pass (lines 127–145). -/
def divPass (avdelningar : List Avdelning) (forvaltningar : List Forvaltning) :
    List Forvaltning :=
  forvaltningar.map (fun f =>
    { f with
      beraknat_medlemsantal := some (((avdelningar.filter
        (fun a => a.forvaltning_id = f.oid)).map
        (fun a => a.beraknat_medlemsantal.getD 0)).sum) })

/-- Result of a call to `calculate_member_counts`: the store after the
batch writes, the session after the run, and the number of collection
reads and batch writes it issued. -/
structure AggResult where
  db : DB
  session : Session
  reads : Nat
  writes : Nat
deriving Repr

/-- `calculate_member_counts` (`manage_units.py` lines 27–148).  Returns
immediately when `needs_recalculation` is `False`; otherwise reads the
four collections, runs the three passes with a re-read after each batch
write, and finally sets `needs_recalculation = False`.  An uncaught
`TypeError` from a non-numeric membership value propagates as an error
before any write of that batch. -/
def calculate_member_counts (session : Session) (db : DB) :
    Except String AggResult :=
  if (session.needs_recalculation.getD true) = false then
    .ok ⟨db, session, 0, 0⟩
  else do
    let enheter₁ ← unitPass db.arbetsplatser db.enheter
    let db₁ : DB := { db with enheter := enheter₁ }
    let avdelningar₁ := deptPass db₁.enheter db.avdelningar
    let db₂ : DB := { db₁ with avdelningar := avdelningar₁ }
    let forvaltningar₁ := divPass db₂.avdelningar db.forvaltningar
    let db₃ : DB := { db₂ with forvaltningar := forvaltningar₁ }
    .ok ⟨db₃, { needs_recalculation := some false },
      6,
      (if db.enheter.isEmpty then 0 else 1)
        + (if db.avdelningar.isEmpty then 0 else 1)
        + (if db.forvaltningar.isEmpty then 0 else 1)⟩

/-! ## Cache layer (`views/cache_manager.py`) -/

/-- The Store as seen by the cache layer: the database plus a fault
switch making every collection read raise (models `StoreUnavailable`). -/
structure Store where
  db : DB
  readsFail : Bool

/-- The cached snapshot is a copy of the six collections, exactly the
dict built by `load_base_data`. -/
abbrev Snapshot := DB

/-- `load_base_data` (`cache_manager.py` lines 27–39): read all six
collections; a failing read raises before any session mutation. -/
def load_base_data (store : Store) : Except String Snapshot :=
  if store.readsFail then .error "StoreUnavailable" else .ok store.db

/-- Association map with `defaultdict(list)`-style append semantics:
insertion-ordered key/value-list pairs. -/
def mapAppend {K V : Type} [DecidableEq K]
    (m : List (K × List V)) (k : K) (v : V) : List (K × List V) :=
  match m with
  | [] => [(k, [v])]
  | (k', vs) :: rest =>
      if k' = k then (k', vs ++ [v]) :: rest
      else (k', vs) :: mapAppend rest k v

/-- Value of a `defaultdict(list)` at a key: `[]` when absent. -/
def listAt {K V : Type} [DecidableEq K]
    (m : List (K × List V)) (k : K) : List V :=
  match m.find? (fun p => p.1 = k) with
  | some p => p.2
  | none => []

/-- The derived index set built by `create_indexes`
(`cache_manager.py` lines 42–109); the `id_lookup` sub-dict is
flattened into one field per collection. -/
structure Indexes where
  avdelningar_by_forv : List (String × List Avdelning)
  enheter_by_avd : List (String × List Enhet)
  arbetsplatser_by_forv : List (Option String × List Arbetsplats)
  personer_by_forv : List (String × List Person)
  personer_by_arbetsplats : List (String × List Person)
  boards_by_forv : List (String × List Board)
  regionala_arbetsplatser : List Arbetsplats
  id_forvaltningar : List (String × Forvaltning)
  id_avdelningar : List (String × Avdelning)
  id_enheter : List (String × Enhet)
  id_arbetsplatser : List (String × Arbetsplats)
  id_boards : List (String × Board)

/-- Empty index set, as initialized at the top of `create_indexes`. -/
def emptyIndexes : Indexes :=
  ⟨[], [], [], [], [], [], [], [], [], [], [], []⟩

/-- Map with last-write-wins insert, for the `id_lookup` dicts. -/
def mapPut {K V : Type} [DecidableEq K]
    (m : List (K × V)) (k : K) (v : V) : List (K × V) :=
  match m with
  | [] => [(k, v)]
  | (k', v') :: rest =>
      if k' = k then (k', v) :: rest
      else (k', v') :: mapPut rest k v

/-- `create_indexes` (`cache_manager.py` lines 42–109), folding each
collection in order into the index structure. -/
def create_indexes (data : Snapshot) : Indexes :=
  let i0 := emptyIndexes
  let i1 := data.avdelningar.foldl (fun i avd =>
    { i with
      avdelningar_by_forv := mapAppend i.avdelningar_by_forv avd.forvaltning_id avd,
      id_avdelningar := mapPut i.id_avdelningar avd.oid avd }) i0
  let i2 := data.enheter.foldl (fun i enhet =>
    { i with
      enheter_by_avd := mapAppend i.enheter_by_avd enhet.avdelning_id enhet,
      id_enheter := mapPut i.id_enheter enhet.oid enhet }) i1
  let i3 := data.arbetsplatser.foldl (fun i ap =>
    let i' :=
      if ap.alla_forvaltningar then
        { i with regionala_arbetsplatser := i.regionala_arbetsplatser ++ [ap] }
      else
        { i with arbetsplatser_by_forv := mapAppend i.arbetsplatser_by_forv ap.forvaltning_id ap }
    { i' with id_arbetsplatser := mapPut i'.id_arbetsplatser ap.oid ap }) i2
  let i4 := data.personer.foldl (fun i person =>
    let i' := { i with
      personer_by_forv := mapAppend i.personer_by_forv person.forvaltning_id person }
    person.arbetsplats.foldl (fun i arbetsplats =>
      { i with
        personer_by_arbetsplats := mapAppend i.personer_by_arbetsplats arbetsplats person }) i') i3
  let i5 := data.boards.foldl (fun i board =>
    { i with
      boards_by_forv := mapAppend i.boards_by_forv board.forvaltning_id board,
      id_boards := mapPut i.id_boards board.oid board }) i4
  data.forvaltningar.foldl (fun i forv =>
    { i with id_forvaltningar := mapPut i.id_forvaltningar forv.oid forv }) i5

/-- The slice of `st.session_state` owned by the cache layer: the
`cached_data` and `cached_indexes` keys, each possibly absent. -/
structure CacheSession where
  cached_data : Option Snapshot
  cached_indexes : Option Indexes

/-- Result of a cache-layer call: the session afterwards (Python
mutates `st.session_state` in place, so it survives a raise), the
returned value or the raised error, and the number of Store collection
reads issued. -/
structure CacheCall (α : Type) where
  session : CacheSession
  result : Except String α
  reads : Nat

/-- `get_cached_data` (`cache_manager.py` lines 112–124).  Reloads when
forced or when `cached_data` is absent; a failing `load_base_data`
raises before either session key is assigned.  Returning
`session_state.cached_indexes` when only `cached_data` was present
would raise an `AttributeError`; no code path in the repository
creates that state, but the model keeps it faithful. -/
def get_cached_data (store : Store) (force_refresh : Bool)
    (s : CacheSession) : CacheCall (Snapshot × Indexes) :=
  if force_refresh || s.cached_data.isNone then
    match load_base_data store with
    | .error e => ⟨s, .error e, 0⟩
    | .ok data =>
        let idx := create_indexes data
        ⟨⟨some data, some idx⟩, .ok (data, idx), 6⟩
  else
    match s.cached_data, s.cached_indexes with
    | some d, some i => ⟨s, .ok (d, i), 0⟩
    | _, _ => ⟨s, .error "AttributeError", 0⟩

/-- `refresh_cache` (`cache_manager.py` lines 127–136): deletes both
session keys first, then reloads with `force_refresh=True`. -/
def refresh_cache (store : Store) (_s : CacheSession) :
    CacheCall (Snapshot × Indexes) :=
  get_cached_data store true ⟨none, none⟩

/-- A document passed as the `data` argument of
`update_cache_after_change` (Python passes the raw dict). -/
inductive Doc where
  | forv (f : Forvaltning)
  | avd (a : Avdelning)
  | enhet (e : Enhet)
  | ap (w : Arbetsplats)
  | person (p : Person)
  | board (b : Board)

/-- `st.session_state.cached_data[collection_name].append(data)`: the
document lands in the list named by `collection_name`.  (The Python
append is untyped; only matching collection/document pairs occur at
the call sites, and a mismatched pair is modelled as a no-op.) -/
def appendDoc (snap : Snapshot) (collection_name : String) (d : Doc) :
    Snapshot :=
  match collection_name, d with
  | "forvaltningar", .forv f => { snap with forvaltningar := snap.forvaltningar ++ [f] }
  | "avdelningar", .avd a => { snap with avdelningar := snap.avdelningar ++ [a] }
  | "enheter", .enhet e => { snap with enheter := snap.enheter ++ [e] }
  | "arbetsplatser", .ap w => { snap with arbetsplatser := snap.arbetsplatser ++ [w] }
  | "personer", .person p => { snap with personer := snap.personer ++ [p] }
  | "boards", .board b => { snap with boards := snap.boards ++ [b] }
  | _, _ => snap

/-- The six keys of the `cached_data` dict, for the
`collection_name not in st.session_state.cached_data` test. -/
def validCollection (c : String) : Bool :=
  c = "forvaltningar" || c = "avdelningar" || c = "enheter"
    || c = "arbetsplatser" || c = "personer" || c = "boards"

/-- `update_cache_after_change` (`cache_manager.py` lines 139–165).
Updates/deletes and any change to `forvaltningar`/`avdelningar` do a
full `refresh_cache`; a create with a (truthy) document is appended to
the snapshot, and only for `personer` are the two person indexes
patched.  Accessing `st.session_state.cached_data` with no cache
present raises `AttributeError`. -/
def update_cache_after_change (store : Store) (collection_name : String)
    (op : String) (data : Option Doc) (s : CacheSession) :
    CacheCall Unit :=
  if op = "delete" || op = "update"
      || collection_name = "forvaltningar" || collection_name = "avdelningar" then
    let c := refresh_cache store s
    ⟨c.session, c.result.map (fun _ => ()), c.reads⟩
  else if op = "create" then
    match data with
    | none => ⟨s, .ok (), 0⟩
    | some d =>
        match s.cached_data with
        | none => ⟨s, .error "AttributeError", 0⟩
        | some snap =>
            if validCollection collection_name = false then
              let c := refresh_cache store s
              ⟨c.session, c.result.map (fun _ => ()), c.reads⟩
            else
              let snap' := appendDoc snap collection_name d
              if collection_name = "personer" then
                match d with
                | .person p =>
                    match s.cached_indexes with
                    | none => ⟨⟨some snap', s.cached_indexes⟩, .error "AttributeError", 0⟩
                    | some idx =>
                        let idx₁ := { idx with
                          personer_by_forv := mapAppend idx.personer_by_forv p.forvaltning_id p }
                        let idx₂ := { idx₁ with
                          personer_by_arbetsplats := p.arbetsplats.foldl
                            (fun m arbetsplats => mapAppend m arbetsplats p)
                            idx₁.personer_by_arbetsplats }
                        ⟨⟨some snap', some idx₂⟩, .ok (), 0⟩
                | _ => ⟨⟨some snap', s.cached_indexes⟩, .ok (), 0⟩
              else
                ⟨⟨some snap', s.cached_indexes⟩, .ok (), 0⟩
  else
    ⟨s, .ok (), 0⟩

/-! ## Mutation handlers in the form collaborators -/

/-- The Division-create handler of `manage_units.show`
(`manage_units.py` lines 216–224): `insert_one` of a fresh document
with `beraknat_medlemsantal = 0`, a log write, and `st.rerun()` — the
cache-manager session keys are not touched. -/
def add_forvaltning (db : DB) (s : CacheSession) (newId : String) :
    DB × CacheSession :=
  ({ db with forvaltningar := db.forvaltningar
      ++ [{ oid := newId, beraknat_medlemsantal := some 0 }] }, s)

/-- The membership-count update handler for a Dedicated workplace
(`manage_workplaces.py` lines 715–733), in the branch where the form
detected changed data: `update_one` setting `medlemmar_per_enhet` and
`medlemsantal`, a log write, `st.rerun()` — neither
`needs_recalculation` nor the cache-manager keys are touched. -/
def dedicated_member_update (db : DB) (session : Session)
    (apId : String) (nya_medlemmar : BVal) (total_medlemmar : Int) :
    DB × Session :=
  ({ db with arbetsplatser := db.arbetsplatser.map (fun w =>
      if w.oid = apId then
        { w with medlemmar_per_enhet := some nya_medlemmar,
                 medlemsantal := total_medlemmar }
      else w) }, session)

/-- The sidebar "↻ Uppdatera data" button handler (`app.py` lines
132–139): deletes `cached_data` and `cached_indexes` and sets
`needs_recalculation = True`.  This is the only place in the
repository that sets the flag to `True`. -/
def uppdatera_data_button (_s : CacheSession × Session) :
    CacheSession × Session :=
  (⟨none, none⟩, { needs_recalculation := some true })

/-! ## Spec-side characterizations

`specUnitSum` is written from the specification's words ("the sum over
all Workplaces of that Unit's entries in their membership maps, missing
entries counting 0"), to be compared against the source-derived
`enhetTotal`. -/

/-- One membership-map entry holds a numeric count. -/
def isNumEntry : String × BVal → Bool
  | (_, .num _) => true
  | _ => false

/-- A flat membership map: a dict all of whose values are numeric. -/
def numDict : BVal → Bool
  | .dict m => m.all isNumEntry
  | _ => false

/-- One division entry of a Shared workplace map is well-formed: a dict
whose `enheter` value, when present, is a flat numeric map. -/
def wfForvData : BVal → Bool
  | .dict d =>
      match d.lookup "enheter" with
      | some v => numDict v
      | none => true
  | _ => false

/-- A workplace's membership data is well-formed for its scope. -/
def wellFormedAp (ap : Arbetsplats) : Bool :=
  if ap.alla_forvaltningar then
    match ap.medlemmar_per_forvaltning.getD (BVal.dict []) with
    | .dict entries => entries.all (fun p => wfForvData p.2)
    | _ => false
  else numDict (ap.medlemmar_per_enhet.getD (BVal.dict []))

/-- Spec-side read of a membership-map entry: the stored count when the
key is present with a numeric value, 0 otherwise. -/
def entryVal (m : List (String × BVal)) (k : String) : Int :=
  match m.lookup k with
  | some (.num n) => n
  | _ => 0

/-- Spec-side contribution of one Dedicated workplace to one unit. -/
def specDedicatedSum (ap : Arbetsplats) (enhetId : String) : Int :=
  match ap.medlemmar_per_enhet.getD (BVal.dict []) with
  | .dict m => entryVal m enhetId
  | _ => 0

/-- Spec-side read of one division entry of a Shared workplace map. -/
def sharedEntryVal (forvData : BVal) (enhetId : String) : Int :=
  match forvData with
  | .dict d =>
      match d.lookup "enheter" with
      | some (.dict ed) => entryVal ed enhetId
      | _ => 0
  | _ => 0

/-- Spec-side contribution of one Shared workplace to one unit: each
per-division entry contributes independently. -/
def specSharedSum (ap : Arbetsplats) (enhetId : String) : Int :=
  match ap.medlemmar_per_forvaltning.getD (BVal.dict []) with
  | .dict entries => (entries.map (fun p => sharedEntryVal p.2 enhetId)).sum
  | _ => 0

/-- Spec-side unit count: sum over all workplaces of that unit's
entries in their membership maps, missing entries counting 0. -/
def specUnitSum (arbetsplatser : List Arbetsplats) (enhetId : String) : Int :=
  (arbetsplatser.map (fun ap =>
    if ap.alla_forvaltningar then specSharedSum ap enhetId
    else specDedicatedSum ap enhetId)).sum

/-- A workplace whose membership map for its scope is not a dict at the
top level (a "non-map where a map is expected"). -/
def shapeMalformedAp (ap : Arbetsplats) : Bool :=
  if ap.alla_forvaltningar then
    match ap.medlemmar_per_forvaltning.getD (BVal.dict []) with
    | .dict _ => false
    | _ => true
  else
    match ap.medlemmar_per_enhet.getD (BVal.dict []) with
    | .dict _ => false
    | _ => true

/-- One division entry of a Shared map with wrong nesting: not a dict,
or carrying a non-dict `enheter` value. -/
def sharedEntryMalformed (forvData : BVal) : Bool :=
  match forvData with
  | .dict d =>
      match d.lookup "enheter" with
      | some (.dict _) => false
      | some _ => true
      | none => false
  | _ => true

/-! ## Concrete instances used by counterexamples and witnesses -/

/-- One-division store contents, also serving as its cached snapshot. -/
def exSnap0 : Snapshot :=
  ⟨[⟨"f1", some 0⟩], [], [], [], [], []⟩

/-- Index set built from `exSnap0`. -/
def exIdx0 : Indexes := create_indexes exSnap0

/-- A session that has already loaded `exSnap0`. -/
def exSession0 : CacheSession := ⟨some exSnap0, some exIdx0⟩

/-- A store whose every read raises. -/
def exStoreFail : Store := ⟨exSnap0, true⟩

/-- Store with one Dedicated workplace `w1` with an empty membership
map, and one unit `u1`. -/
def exDB2 : DB :=
  ⟨[⟨"f1", some 0⟩], [⟨"b1", "f1", some 0⟩], [⟨"u1", "b1", some 0⟩],
   [⟨"w1", "W", false, some "f1", 0, some (BVal.dict []), none⟩], [], []⟩

/-- The spec's end-to-end scenario: division A, department B, unit C,
Dedicated workplace W with `membersByUnit = {C: 4}`. -/
def exDB3 : DB :=
  ⟨[⟨"A", some 0⟩], [⟨"B", "A", some 0⟩], [⟨"C", "B", some 0⟩],
   [⟨"W", "W", false, some "A", 4, some (BVal.dict [("C", BVal.num 4)]), none⟩],
   [], []⟩

/-- The shared fan-out scenario: divisions `d1`, `d2` with one
department and one unit each, and one Shared workplace contributing 3
to `u1` under `d1` and 5 to `u2` under `d2`. -/
def exDB4 : DB :=
  ⟨[⟨"d1", some 0⟩, ⟨"d2", some 0⟩],
   [⟨"b1", "d1", some 0⟩, ⟨"b2", "d2", some 0⟩],
   [⟨"u1", "b1", some 0⟩, ⟨"u2", "b2", some 0⟩],
   [⟨"w", "W", true, none, 0, none,
     some (BVal.dict
       [("d1", BVal.dict [("enheter", BVal.dict [("u1", BVal.num 3)])]),
        ("d2", BVal.dict [("enheter", BVal.dict [("u2", BVal.num 5)])])])⟩],
   [], []⟩

/-- Store with a Dedicated workplace carrying a non-numeric count value
under an existing unit key. -/
def exDB7 : DB :=
  ⟨[⟨"f1", some 0⟩], [⟨"b1", "f1", some 0⟩], [⟨"u1", "b1", some 0⟩],
   [⟨"w1", "W", false, some "f1", 0,
     some (BVal.dict [("u1", BVal.str "tre")]), none⟩], [], []⟩

/-- A fresh session: no `needs_recalculation` key yet. -/
def freshSession : Session := ⟨none⟩

/-- The empty store. -/
def emptyDB : DB := ⟨[], [], [], [], [], []⟩

/-- The aggregation result of running `calculate_member_counts` on
`exDB3` in a fresh session: every level counts 4. -/
def exAgg3 : AggResult :=
  ⟨⟨[⟨"A", some 4⟩], [⟨"B", "A", some 4⟩], [⟨"C", "B", some 4⟩],
    exDB3.arbetsplatser, [], []⟩,
   ⟨some false⟩, 6, 3⟩

/-- A Dedicated workplace whose `medlemmar_per_enhet` is a string
instead of a map. -/
def exBadShapeAp : Arbetsplats :=
  ⟨"wx", "WX", false, some "f1", 0, some (BVal.str "oops"), none⟩

/-! ## Lemmas: the aggregation refines the spec-side sums -/

theorem pyAdd_lookup (entries : List (String × BVal)) (k : String) (acc : Int)
    (h : entries.all isNumEntry = true) :
    (match entries.lookup k with
     | some v => pyAdd acc v
     | none => Except.ok acc) = Except.ok (acc + entryVal entries k) := by
  induction entries with
  | nil => simp [entryVal, List.lookup]
  | cons hd t ih =>
      obtain ⟨k', v⟩ := hd
      simp only [List.all_cons, Bool.and_eq_true] at h
      obtain ⟨h1, h2⟩ := h
      cases v with
      | num n =>
          cases hbeq : (k == k') with
          | true => simp [List.lookup, entryVal, hbeq, pyAdd]
          | false => simpa [List.lookup, entryVal, hbeq] using ih h2
      | str s => simp [isNumEntry] at h1
      | dict d => simp [isNumEntry] at h1
      | null => simp [isNumEntry] at h1

theorem addDedicated_ok (acc : Int) (ap : Arbetsplats) (enhetId : String)
    (h : numDict (ap.medlemmar_per_enhet.getD (BVal.dict [])) = true) :
    addDedicated acc ap enhetId = .ok (acc + specDedicatedSum ap enhetId) := by
  unfold addDedicated specDedicatedSum
  cases hm : ap.medlemmar_per_enhet.getD (BVal.dict []) with
  | dict m =>
      rw [hm] at h
      simp only [numDict] at h
      exact pyAdd_lookup m enhetId acc h
  | num n => rw [hm] at h; simp [numDict] at h
  | str s => rw [hm] at h; simp [numDict] at h
  | null => rw [hm] at h; simp [numDict] at h

theorem addSharedEntry_ok (acc : Int) (fd : BVal) (enhetId : String)
    (h : wfForvData fd = true) :
    addSharedEntry acc fd enhetId = .ok (acc + sharedEntryVal fd enhetId) := by
  unfold addSharedEntry sharedEntryVal
  cases fd with
  | dict d =>
      simp only [wfForvData] at h
      cases hl : d.lookup "enheter" with
      | none => simp [hl]
      | some v =>
          rw [hl] at h
          cases v with
          | dict ed =>
              simp only [numDict] at h
              simpa [hl] using pyAdd_lookup ed enhetId acc h
          | num n => simp [numDict] at h
          | str s => simp [numDict] at h
          | null => simp [numDict] at h
  | num n => simp [wfForvData] at h
  | str s => simp [wfForvData] at h
  | null => simp [wfForvData] at h

theorem foldlM_sharedEntries (entries : List (String × BVal))
    (enhetId : String) (h : entries.all (fun p => wfForvData p.2) = true) :
    ∀ acc : Int,
      entries.foldlM (fun a p => addSharedEntry a p.2 enhetId) acc
        = .ok (acc + (entries.map (fun p => sharedEntryVal p.2 enhetId)).sum) := by
  induction entries with
  | nil =>
      intro acc
      simp only [List.map_nil, List.sum_nil, add_zero]
      rfl
  | cons hd t ih =>
      intro acc
      simp only [List.all_cons, Bool.and_eq_true] at h
      rw [List.foldlM_cons, addSharedEntry_ok acc hd.2 enhetId h.1]
      show t.foldlM _ _ = _
      rw [ih h.2]
      simp [add_assoc]

theorem addShared_ok (acc : Int) (ap : Arbetsplats) (enhetId : String)
    (haf : ap.alla_forvaltningar = true) (h : wellFormedAp ap = true) :
    addShared acc ap enhetId = .ok (acc + specSharedSum ap enhetId) := by
  unfold addShared specSharedSum
  unfold wellFormedAp at h
  rw [haf] at h
  simp only [if_pos rfl] at h
  cases hm : ap.medlemmar_per_forvaltning.getD (BVal.dict []) with
  | dict entries =>
      rw [hm] at h
      exact foldlM_sharedEntries entries enhetId h acc
  | num n => rw [hm] at h; exact absurd h (by simp)
  | str s => rw [hm] at h; exact absurd h (by simp)
  | null => rw [hm] at h; exact absurd h (by simp)

theorem enhetTotal_fold (aps : List Arbetsplats) (enhetId : String)
    (h : aps.all wellFormedAp = true) :
    ∀ acc : Int,
      aps.foldlM
        (fun acc ap =>
          if ap.alla_forvaltningar = false then addDedicated acc ap enhetId
          else addShared acc ap enhetId) acc
        = .ok (acc + specUnitSum aps enhetId) := by
  induction aps with
  | nil =>
      intro acc
      simp only [specUnitSum, List.map_nil, List.sum_nil, add_zero]
      rfl
  | cons ap t ih =>
      intro acc
      simp only [List.all_cons, Bool.and_eq_true] at h
      rw [List.foldlM_cons]
      cases haf : ap.alla_forvaltningar with
      | false =>
          have hd : numDict (ap.medlemmar_per_enhet.getD (BVal.dict [])) = true := by
            have := h.1
            unfold wellFormedAp at this
            rwa [haf, if_neg (by simp)] at this
          rw [if_pos rfl, addDedicated_ok acc ap enhetId hd]
          show t.foldlM _ _ = _
          rw [ih h.2]
          simp [specUnitSum, haf, add_assoc]
      | true =>
          rw [if_neg (by simp [haf]), addShared_ok acc ap enhetId haf h.1]
          show t.foldlM _ _ = _
          rw [ih h.2]
          simp [specUnitSum, haf, add_assoc]

theorem enhetTotal_ok (aps : List Arbetsplats) (enhetId : String)
    (h : aps.all wellFormedAp = true) :
    enhetTotal aps enhetId = .ok (specUnitSum aps enhetId) := by
  unfold enhetTotal
  rw [enhetTotal_fold aps enhetId h 0, zero_add]

theorem unitPass_ok (aps : List Arbetsplats) (enheter : List Enhet)
    (h : aps.all wellFormedAp = true) :
    unitPass aps enheter = .ok (enheter.map (fun e =>
      { e with beraknat_medlemsantal := some (specUnitSum aps e.oid) })) := by
  induction enheter with
  | nil => rfl
  | cons e t ih =>
      unfold unitPass at ih ⊢
      rw [List.mapM_cons, enhetTotal_ok aps e.oid h, ih]
      rfl

theorem calculate_member_counts_eq (session : Session) (db : DB)
    (hflag : session.needs_recalculation.getD true = true)
    (hwf : db.arbetsplatser.all wellFormedAp = true) :
    calculate_member_counts session db = .ok
      ⟨{ db with
          enheter := db.enheter.map (fun e =>
            { e with beraknat_medlemsantal := some (specUnitSum db.arbetsplatser e.oid) }),
          avdelningar := deptPass (db.enheter.map (fun e =>
            { e with beraknat_medlemsantal := some (specUnitSum db.arbetsplatser e.oid) }))
            db.avdelningar,
          forvaltningar := divPass (deptPass (db.enheter.map (fun e =>
            { e with beraknat_medlemsantal := some (specUnitSum db.arbetsplatser e.oid) }))
            db.avdelningar) db.forvaltningar },
       ⟨some false⟩, 6,
       (if db.enheter.isEmpty then 0 else 1)
         + (if db.avdelningar.isEmpty then 0 else 1)
         + (if db.forvaltningar.isEmpty then 0 else 1)⟩ := by
  unfold calculate_member_counts
  rw [if_neg (by simp [hflag]), unitPass_ok db.arbetsplatser db.enheter hwf]
  rfl

/-- C3: for a hierarchy with well-formed membership maps, after a
successful run of `calculate_member_counts` with the recalculation flag
set, every unit's persisted `beraknat_medlemsantal` equals the sum over
all workplaces of that unit's membership-map entries (missing entries
counting 0), every department's count equals the sum over its units,
and every division's count equals the sum over its departments. -/
theorem calculate_member_counts_bottom_up
    (session : Session) (db : DB) (r : AggResult)
    (hflag : session.needs_recalculation.getD true = true)
    (hwf : db.arbetsplatser.all wellFormedAp = true)
    (hrun : calculate_member_counts session db = .ok r) :
    (∀ e ∈ r.db.enheter,
       e.beraknat_medlemsantal = some (specUnitSum db.arbetsplatser e.oid))
    ∧ (∀ a ∈ r.db.avdelningar,
       a.beraknat_medlemsantal = some (((r.db.enheter.filter
         (fun e => e.avdelning_id = a.oid)).map
         (fun e => e.beraknat_medlemsantal.getD 0)).sum))
    ∧ (∀ f ∈ r.db.forvaltningar,
       f.beraknat_medlemsantal = some (((r.db.avdelningar.filter
         (fun a => a.forvaltning_id = f.oid)).map
         (fun a => a.beraknat_medlemsantal.getD 0)).sum)) := by
  rw [calculate_member_counts_eq session db hflag hwf] at hrun
  have hr := Except.ok.inj hrun
  subst hr
  refine ⟨?_, ?_, ?_⟩
  · intro e he
    obtain ⟨e₀, he₀, rfl⟩ := List.mem_map.mp he
    rfl
  · intro a ha
    unfold deptPass at ha
    obtain ⟨a₀, ha₀, rfl⟩ := List.mem_map.mp ha
    rfl
  · intro f hf
    unfold divPass at hf
    obtain ⟨f₀, hf₀, rfl⟩ := List.mem_map.mp hf
    rfl

theorem calculate_member_counts_bottom_up_witness :
    (∀ e ∈ exAgg3.db.enheter,
       e.beraknat_medlemsantal = some (specUnitSum exDB3.arbetsplatser e.oid))
    ∧ (∀ a ∈ exAgg3.db.avdelningar,
       a.beraknat_medlemsantal = some (((exAgg3.db.enheter.filter
         (fun e => e.avdelning_id = a.oid)).map
         (fun e => e.beraknat_medlemsantal.getD 0)).sum))
    ∧ (∀ f ∈ exAgg3.db.forvaltningar,
       f.beraknat_medlemsantal = some (((exAgg3.db.avdelningar.filter
         (fun a => a.forvaltning_id = f.oid)).map
         (fun a => a.beraknat_medlemsantal.getD 0)).sum)) :=
  calculate_member_counts_bottom_up freshSession exDB3 exAgg3 rfl (by decide) (by rfl)

/-- C4: one Shared workplace with per-division entries
`{d1: {enheter: {u1: 3}}, d2: {enheter: {u2: 5}}}` contributes 3 to
`u1` and 5 to `u2` — and transitively to their departments and
divisions — in a single aggregation run. -/
theorem shared_workplace_fanout :
    (calculate_member_counts freshSession exDB4).map (fun r =>
      (r.db.enheter.map (fun e => (e.oid, e.beraknat_medlemsantal)),
       r.db.avdelningar.map (fun a => (a.oid, a.beraknat_medlemsantal)),
       r.db.forvaltningar.map (fun f => (f.oid, f.beraknat_medlemsantal))))
    = .ok ([("u1", some 3), ("u2", some 5)],
           [("b1", some 3), ("b2", some 5)],
           [("d1", some 3), ("d2", some 5)]) := by
  rfl

/-- C7 counterexample: a Dedicated workplace storing the string
`"tre"` under an existing unit key makes `calculate_member_counts`
raise a `TypeError` instead of contributing zero. -/
theorem aggregation_raises_on_nonnumeric :
    calculate_member_counts freshSession exDB7 = .error "TypeError" := by
  rfl

theorem step_malformed_ok (w : Arbetsplats) (enhetId : String)
    (h : shapeMalformedAp w = true) (acc : Int) :
    (if w.alla_forvaltningar = false then addDedicated acc w enhetId
     else addShared acc w enhetId) = .ok acc := by
  unfold shapeMalformedAp at h
  cases haf : w.alla_forvaltningar with
  | false =>
      simp only [haf, Bool.false_eq_true, if_false] at h
      rw [if_pos rfl]
      unfold addDedicated
      cases hm : w.medlemmar_per_enhet.getD (BVal.dict []) with
      | dict m => rw [hm] at h; simp at h
      | num n => rfl
      | str s => rfl
      | null => rfl
  | true =>
      simp only [haf, if_true] at h
      rw [if_neg (by simp [haf])]
      unfold addShared
      cases hm : w.medlemmar_per_forvaltning.getD (BVal.dict []) with
      | dict m => rw [hm] at h; simp at h
      | num n => rfl
      | str s => rfl
      | null => rfl

theorem except_bind_congr {ε α β : Type} (ex : Except ε α)
    (k k' : α → Except ε β) (h : ∀ a, k a = k' a) :
    ex >>= k = ex >>= k' := by
  cases ex with
  | error e => rfl
  | ok a => exact h a

theorem enhetTotal_malformed_skip (w : Arbetsplats)
    (aps₁ aps₂ : List Arbetsplats) (enhetId : String)
    (h : shapeMalformedAp w = true) :
    enhetTotal (aps₁ ++ w :: aps₂) enhetId
      = enhetTotal (aps₁ ++ aps₂) enhetId := by
  unfold enhetTotal
  rw [List.foldlM_append, List.foldlM_append]
  refine except_bind_congr _ _ _ (fun acc => ?_)
  rw [List.foldlM_cons, step_malformed_ok w enhetId h acc]
  rfl

/-- C7 amended: membership data that is malformed at the map level — a
non-dict where a dict is expected, or wrong nesting inside a Shared
map — contributes zero without raising and leaves every other
workplace's contribution unchanged; but (see the counterexample) a
non-numeric count value under an existing unit key raises. -/
theorem malformed_shape_zero_contribution :
    (∀ (w : Arbetsplats) (aps₁ aps₂ : List Arbetsplats) (enhetId : String),
       shapeMalformedAp w = true →
       enhetTotal (aps₁ ++ w :: aps₂) enhetId = enhetTotal (aps₁ ++ aps₂) enhetId)
    ∧ (∀ (acc : Int) (fd : BVal) (enhetId : String),
       sharedEntryMalformed fd = true →
       addSharedEntry acc fd enhetId = .ok acc) := by
  constructor
  · exact fun w a b enhetId h => enhetTotal_malformed_skip w a b enhetId h
  · intro acc fd enhetId h
    unfold sharedEntryMalformed at h
    unfold addSharedEntry
    cases fd with
    | dict d =>
        cases hl : d.lookup "enheter" with
        | none => simp [hl]
        | some v =>
            cases v with
            | dict ed => simp [hl] at h
            | num n => simp [hl]
            | str s => simp [hl]
            | null => simp [hl]
    | num n => rfl
    | str s => rfl
    | null => rfl

theorem malformed_shape_zero_contribution_witness :
    enhetTotal ([] ++ exBadShapeAp :: exDB3.arbetsplatser) "C"
      = enhetTotal ([] ++ exDB3.arbetsplatser) "C"
    ∧ addSharedEntry 2 (BVal.str "x") "u" = .ok 2 :=
  ⟨malformed_shape_zero_contribution.1 exBadShapeAp [] exDB3.arbetsplatser "C" (by decide),
   malformed_shape_zero_contribution.2 2 (BVal.str "x") "u" (by decide)⟩

/-! ## Gating of the aggregation (C8) -/

/-- C8: the recomputation is gated by `needs_recalculation`: the flag
defaults to `True` in a fresh session; when it reads `False` the
engine returns at once with no Store reads or writes and no change;
any successful call leaves the flag reading `False`; hence a second
call right after a successful one performs no work — at most one
recomputation per session until the flag is set again. -/
theorem recalculation_gating :
    (freshSession.needs_recalculation.getD true = true)
    ∧ (∀ (s : Session) (db : DB), s.needs_recalculation.getD true = false →
        calculate_member_counts s db = .ok ⟨db, s, 0, 0⟩)
    ∧ (∀ (s : Session) (db : DB) (r : AggResult),
        calculate_member_counts s db = .ok r →
        r.session.needs_recalculation.getD true = false)
    ∧ (∀ (s : Session) (db : DB) (r : AggResult),
        calculate_member_counts s db = .ok r →
        calculate_member_counts r.session r.db = .ok ⟨r.db, r.session, 0, 0⟩) := by
  have h2 : ∀ (s : Session) (db : DB), s.needs_recalculation.getD true = false →
      calculate_member_counts s db = .ok ⟨db, s, 0, 0⟩ := by
    intro s db h
    unfold calculate_member_counts
    rw [if_pos h]
  have h3 : ∀ (s : Session) (db : DB) (r : AggResult),
      calculate_member_counts s db = .ok r →
      r.session.needs_recalculation.getD true = false := by
    intro s db r h
    unfold calculate_member_counts at h
    by_cases hc : s.needs_recalculation.getD true = false
    · rw [if_pos hc] at h
      have := Except.ok.inj h
      subst this
      exact hc
    · rw [if_neg hc] at h
      cases hu : unitPass db.arbetsplatser db.enheter with
      | error e =>
          rw [hu] at h
          exact absurd h (by simp [Bind.bind, Except.bind])
      | ok enheter₁ =>
          rw [hu] at h
          have := Except.ok.inj h
          subst this
          rfl
  exact ⟨rfl, h2, h3, fun s db r h =>
    h2 r.session r.db (h3 s db r h)⟩

theorem recalculation_gating_witness :
    calculate_member_counts ⟨some false⟩ emptyDB
      = .ok ⟨emptyDB, ⟨some false⟩, 0, 0⟩
    ∧ (⟨emptyDB, ⟨some false⟩, 0, 0⟩ : AggResult).session.needs_recalculation.getD true
        = false :=
  ⟨recalculation_gating.2.1 ⟨some false⟩ emptyDB rfl,
   recalculation_gating.2.2.1 ⟨some false⟩ emptyDB ⟨emptyDB, ⟨some false⟩, 0, 0⟩
     (recalculation_gating.2.1 ⟨some false⟩ emptyDB rfl)⟩

/-! ## Idempotence of `Load(false)` (C5) -/

/-- C5: after any successful `get_cached_data(force_refresh=False)`
call, an immediately repeated call with no intervening mutation issues
zero Store reads, leaves the session unchanged, and returns the
identical snapshot and index set. -/
theorem load_false_idempotent (store : Store) (s s₁ : CacheSession)
    (snap : Snapshot) (idx : Indexes) (n : Nat)
    (h : get_cached_data store false s = ⟨s₁, .ok (snap, idx), n⟩) :
    get_cached_data store false s₁ = ⟨s₁, .ok (snap, idx), 0⟩ := by
  unfold get_cached_data at h ⊢
  cases hcd : s.cached_data with
  | none =>
      rw [hcd] at h
      simp only [Option.isNone_none, Bool.false_or, if_true] at h
      cases hl : load_base_data store with
      | error e =>
          rw [hl] at h
          simp [CacheCall.mk.injEq] at h
      | ok data =>
          rw [hl] at h
          simp only [CacheCall.mk.injEq, Except.ok.injEq, Prod.mk.injEq] at h
          obtain ⟨hs₁, ⟨hsnap, hidx⟩, hn⟩ := h
          subst hs₁ hsnap hidx
          rfl
  | some d =>
      rw [hcd] at h
      simp only [Option.isNone_some, Bool.false_or, Bool.false_eq_true, if_false] at h
      cases hci : s.cached_indexes with
      | none =>
          rw [hci] at h
          simp [CacheCall.mk.injEq] at h
      | some i =>
          rw [hci] at h
          simp only [CacheCall.mk.injEq, Except.ok.injEq, Prod.mk.injEq] at h
          obtain ⟨hs₁, ⟨hsnap, hidx⟩, hn⟩ := h
          subst hs₁ hsnap hidx
          rw [hcd, hci]
          rfl

theorem load_false_idempotent_witness :
    get_cached_data ⟨exSnap0, false⟩ false exSession0
      = ⟨exSession0, .ok (exSnap0, exIdx0), 0⟩ :=
  load_false_idempotent ⟨exSnap0, false⟩ exSession0 exSession0 exSnap0 exIdx0 0 rfl

/-! ## Index-patch lemmas and the Person-create fast path (C6) -/

theorem listAt_mapAppend_self {K V : Type} [DecidableEq K]
    (m : List (K × List V)) (k : K) (v : V) :
    listAt (mapAppend m k v) k = listAt m k ++ [v] := by
  induction m with
  | nil => simp [mapAppend, listAt, List.find?]
  | cons p rest ih =>
      obtain ⟨k', vs⟩ := p
      by_cases hk : k' = k
      · subst hk
        simp [mapAppend, listAt, List.find?]
      · unfold mapAppend
        rw [if_neg hk]
        unfold listAt
        rw [List.find?_cons_of_neg _ (by simp [hk]),
            List.find?_cons_of_neg _ (by simp [hk])]
        exact ih

theorem listAt_mapAppend_ne {K V : Type} [DecidableEq K]
    (m : List (K × List V)) (k k' : K) (v : V) (hk : k' ≠ k) :
    listAt (mapAppend m k v) k' = listAt m k' := by
  have hk' : k ≠ k' := fun h => hk h.symm
  induction m with
  | nil =>
      unfold mapAppend listAt
      simp [List.find?, hk']
  | cons p rest ih =>
      obtain ⟨k₀, vs⟩ := p
      by_cases h0 : k₀ = k
      · subst h0
        unfold mapAppend
        rw [if_pos rfl]
        unfold listAt
        rw [List.find?_cons_of_neg _ (by simp [hk']),
            List.find?_cons_of_neg _ (by simp [hk'])]
      · unfold mapAppend
        rw [if_neg h0]
        by_cases h1 : k₀ = k'
        · subst h1
          unfold listAt
          rw [List.find?_cons_of_pos _ (by simp), List.find?_cons_of_pos _ (by simp)]
        · unfold listAt
          rw [List.find?_cons_of_neg _ (by simp [h1]),
              List.find?_cons_of_neg _ (by simp [h1])]
          exact ih

theorem mem_listAt_mapAppend {K V : Type} [DecidableEq K]
    (m : List (K × List V)) (k k' : K) (v w : V)
    (h : w ∈ listAt m k') : w ∈ listAt (mapAppend m k v) k' := by
  by_cases hk : k' = k
  · subst hk
    rw [listAt_mapAppend_self]
    exact List.mem_append_left _ h
  · rw [listAt_mapAppend_ne m k k' v hk]
    exact h

theorem self_mem_listAt_mapAppend {K V : Type} [DecidableEq K]
    (m : List (K × List V)) (k : K) (v : V) :
    v ∈ listAt (mapAppend m k v) k := by
  rw [listAt_mapAppend_self]
  exact List.mem_append_right _ (List.mem_singleton.mpr rfl)

theorem mem_listAt_foldl_of_mem (names : List String) {V : Type}
    (p : V) (k : String) :
    ∀ m : List (String × List V), p ∈ listAt m k →
      p ∈ listAt (names.foldl (fun m nm => mapAppend m nm p) m) k := by
  induction names with
  | nil => intro m h; exact h
  | cons hd t ih =>
      intro m h
      rw [List.foldl_cons]
      exact ih (mapAppend m hd p) (mem_listAt_mapAppend m hd k p p h)

theorem mem_listAt_foldl_mapAppend (names : List String) {V : Type} (p : V) :
    ∀ m : List (String × List V), ∀ name ∈ names,
      p ∈ listAt (names.foldl (fun m nm => mapAppend m nm p) m) name := by
  induction names with
  | nil => intro m name hn; cases hn
  | cons hd t ih =>
      intro m name hn
      rw [List.foldl_cons]
      rcases List.mem_cons.mp hn with h | h
      · subst h
        exact mem_listAt_foldl_of_mem t p name (mapAppend m name p)
          (self_mem_listAt_mapAppend m name p)
      · exact ih (mapAppend m hd p) name h

/-- C6: a Person create routed through `update_cache_after_change`
appends the person to the snapshot's `personer` list, makes the person
appear under their `forvaltning_id` in `personer_by_forv` and under
each of their workplace names in `personer_by_arbetsplats`, issues
zero Store reads, and leaves every other cached index unchanged. -/
theorem person_create_incremental (store : Store) (s : CacheSession)
    (snap : Snapshot) (idx : Indexes) (p : Person)
    (hd : s.cached_data = some snap) (hi : s.cached_indexes = some idx) :
    ∃ idx₂ : Indexes,
      update_cache_after_change store "personer" "create" (some (.person p)) s
        = ⟨⟨some { snap with personer := snap.personer ++ [p] }, some idx₂⟩, .ok (), 0⟩
      ∧ p ∈ listAt idx₂.personer_by_forv p.forvaltning_id
      ∧ (∀ name ∈ p.arbetsplats, p ∈ listAt idx₂.personer_by_arbetsplats name)
      ∧ idx₂.avdelningar_by_forv = idx.avdelningar_by_forv
      ∧ idx₂.enheter_by_avd = idx.enheter_by_avd
      ∧ idx₂.arbetsplatser_by_forv = idx.arbetsplatser_by_forv
      ∧ idx₂.boards_by_forv = idx.boards_by_forv
      ∧ idx₂.regionala_arbetsplatser = idx.regionala_arbetsplatser
      ∧ idx₂.id_forvaltningar = idx.id_forvaltningar
      ∧ idx₂.id_avdelningar = idx.id_avdelningar
      ∧ idx₂.id_enheter = idx.id_enheter
      ∧ idx₂.id_arbetsplatser = idx.id_arbetsplatser
      ∧ idx₂.id_boards = idx.id_boards := by
  obtain ⟨cd, ci⟩ := s
  simp only at hd hi
  subst hd hi
  refine ⟨{ idx with
      personer_by_forv := mapAppend idx.personer_by_forv p.forvaltning_id p,
      personer_by_arbetsplats := p.arbetsplats.foldl
        (fun m arbetsplats => mapAppend m arbetsplats p)
        idx.personer_by_arbetsplats },
    rfl, ?_, ?_, rfl, rfl, rfl, rfl, rfl, rfl, rfl, rfl, rfl, rfl⟩
  · exact self_mem_listAt_mapAppend idx.personer_by_forv p.forvaltning_id p
  · exact fun name hn =>
      mem_listAt_foldl_mapAppend p.arbetsplats p idx.personer_by_arbetsplats name hn

theorem person_create_incremental_witness :
    ∃ idx₂ : Indexes,
      update_cache_after_change ⟨exSnap0, false⟩ "personer" "create"
          (some (.person ⟨"p1", "f1", ["W"]⟩)) exSession0
        = ⟨⟨some { exSnap0 with
              personer := exSnap0.personer ++ [⟨"p1", "f1", ["W"]⟩] }, some idx₂⟩,
           .ok (), 0⟩
      ∧ (⟨"p1", "f1", ["W"]⟩ : Person) ∈ listAt idx₂.personer_by_forv "f1"
      ∧ (∀ name ∈ (["W"] : List String),
          (⟨"p1", "f1", ["W"]⟩ : Person) ∈ listAt idx₂.personer_by_arbetsplats name)
      ∧ idx₂.avdelningar_by_forv = exIdx0.avdelningar_by_forv
      ∧ idx₂.enheter_by_avd = exIdx0.enheter_by_avd
      ∧ idx₂.arbetsplatser_by_forv = exIdx0.arbetsplatser_by_forv
      ∧ idx₂.boards_by_forv = exIdx0.boards_by_forv
      ∧ idx₂.regionala_arbetsplatser = exIdx0.regionala_arbetsplatser
      ∧ idx₂.id_forvaltningar = exIdx0.id_forvaltningar
      ∧ idx₂.id_avdelningar = exIdx0.id_avdelningar
      ∧ idx₂.id_enheter = exIdx0.id_enheter
      ∧ idx₂.id_arbetsplatser = exIdx0.id_arbetsplatser
      ∧ idx₂.id_boards = exIdx0.id_boards :=
  person_create_incremental ⟨exSnap0, false⟩ exSession0 exSnap0 exIdx0
    ⟨"p1", "f1", ["W"]⟩ rfl rfl

/-! ## Creates on the remaining collections (C10) -/

/-- C10: a create on `enheter`, `arbetsplatser` or `boards` with a
document appends it to that collection's cached list, issues no Store
access, and leaves the cached index object untouched (so none of the
workplace/board indexes see the new entity until a full reload). -/
theorem nonperson_create_incremental (store : Store) (s : CacheSession)
    (snap : Snapshot) (c : String) (d : Doc)
    (hd : s.cached_data = some snap)
    (hc : c = "enheter" ∨ c = "arbetsplatser" ∨ c = "boards") :
    update_cache_after_change store c "create" (some d) s
      = ⟨⟨some (appendDoc snap c d), s.cached_indexes⟩, .ok (), 0⟩
    ∧ (∀ e : Enhet, appendDoc snap "enheter" (.enhet e)
        = { snap with enheter := snap.enheter ++ [e] })
    ∧ (∀ w : Arbetsplats, appendDoc snap "arbetsplatser" (.ap w)
        = { snap with arbetsplatser := snap.arbetsplatser ++ [w] })
    ∧ (∀ b : Board, appendDoc snap "boards" (.board b)
        = { snap with boards := snap.boards ++ [b] }) := by
  obtain ⟨cd, ci⟩ := s
  simp only at hd
  subst hd
  rcases hc with rfl | rfl | rfl
  · exact ⟨rfl, fun e => rfl, fun w => rfl, fun b => rfl⟩
  · exact ⟨rfl, fun e => rfl, fun w => rfl, fun b => rfl⟩
  · exact ⟨rfl, fun e => rfl, fun w => rfl, fun b => rfl⟩

theorem nonperson_create_incremental_witness :
    update_cache_after_change ⟨exSnap0, false⟩ "arbetsplatser" "create"
        (some (.ap exBadShapeAp)) exSession0
      = ⟨⟨some (appendDoc exSnap0 "arbetsplatser" (.ap exBadShapeAp)),
          exSession0.cached_indexes⟩, .ok (), 0⟩
    ∧ (∀ e : Enhet, appendDoc exSnap0 "enheter" (.enhet e)
        = { exSnap0 with enheter := exSnap0.enheter ++ [e] })
    ∧ (∀ w : Arbetsplats, appendDoc exSnap0 "arbetsplatser" (.ap w)
        = { exSnap0 with arbetsplatser := exSnap0.arbetsplatser ++ [w] })
    ∧ (∀ b : Board, appendDoc exSnap0 "boards" (.board b)
        = { exSnap0 with boards := exSnap0.boards ++ [b] }) :=
  nonperson_create_incremental ⟨exSnap0, false⟩ exSession0 exSnap0
    "arbetsplatser" (.ap exBadShapeAp) rfl (Or.inr (Or.inl rfl))

/-! ## Structural mutations and the cache (C1) -/

/-- C1 counterexample: after the Division-create handler of
`manage_units.show` inserts a new division `f2`, the cache-manager
session is unchanged and the next `Load(false)` issues zero Store
reads and returns the old snapshot — which does not contain `f2`
although the store now does. -/
theorem division_create_stale_cache :
    (add_forvaltning exSnap0 exSession0 "f2").2 = exSession0
    ∧ get_cached_data ⟨(add_forvaltning exSnap0 exSession0 "f2").1, false⟩ false
        (add_forvaltning exSnap0 exSession0 "f2").2
      = ⟨exSession0, .ok (exSnap0, exIdx0), 0⟩
    ∧ (∀ f ∈ exSnap0.forvaltningar, f.oid ≠ "f2")
    ∧ (∃ f ∈ (add_forvaltning exSnap0 exSession0 "f2").1.forvaltningar,
        f.oid = "f2") := by
  exact ⟨rfl, rfl, by decide, by decide⟩

/-- C1 amended: mutations routed through `update_cache_after_change`
with operation update/delete do refresh the cache exactly as
`refresh_cache` does (a full re-read); but the Division create handler
in `manage_units.show` never touches the cache-manager session, and the
next `Load(false)` with a snapshot present serves it with zero Store
reads, so that snapshot does not reflect the mutation. -/
theorem mutation_invalidation_partial (store : Store) (s : CacheSession)
    (db : DB) (newId c op : String) (d : Option Doc)
    (snap : Snapshot) (idx : Indexes)
    (hop : op = "update" ∨ op = "delete")
    (hd : s.cached_data = some snap) (hi : s.cached_indexes = some idx) :
    (update_cache_after_change store c op d s).session
        = (refresh_cache store s).session
    ∧ (update_cache_after_change store c op d s).reads
        = (refresh_cache store s).reads
    ∧ (add_forvaltning db s newId).2 = s
    ∧ get_cached_data store false s = ⟨s, .ok (snap, idx), 0⟩ := by
  obtain ⟨cd, ci⟩ := s
  simp only at hd hi
  subst hd hi
  rcases hop with rfl | rfl
  · exact ⟨rfl, rfl, rfl, rfl⟩
  · exact ⟨rfl, rfl, rfl, rfl⟩

theorem mutation_invalidation_partial_witness :
    (update_cache_after_change ⟨exSnap0, false⟩ "arbetsplatser" "update"
        none exSession0).session
        = (refresh_cache ⟨exSnap0, false⟩ exSession0).session
    ∧ (update_cache_after_change ⟨exSnap0, false⟩ "arbetsplatser" "update"
        none exSession0).reads
        = (refresh_cache ⟨exSnap0, false⟩ exSession0).reads
    ∧ (add_forvaltning exSnap0 exSession0 "f9").2 = exSession0
    ∧ get_cached_data ⟨exSnap0, false⟩ false exSession0
        = ⟨exSession0, .ok (exSnap0, exIdx0), 0⟩ :=
  mutation_invalidation_partial ⟨exSnap0, false⟩ exSession0 exSnap0 "f9"
    "arbetsplatser" "update" none exSnap0 exIdx0 (Or.inl rfl) rfl rfl

/-! ## `needs_recalculation` and mutations (C2) -/

/-- C2 counterexample: the Dedicated-workplace membership write
handler changes the raw membership data (`u1`'s spec-side sum goes
from 0 to 7) yet returns the session with `needs_recalculation` still
`some false` — the flag is not set by the mutation. -/
theorem membership_write_does_not_set_flag :
    (dedicated_member_update exDB2 ⟨some false⟩ "w1"
        (BVal.dict [("u1", BVal.num 7)]) 7).2.needs_recalculation = some false
    ∧ specUnitSum exDB2.arbetsplatser "u1" = 0
    ∧ specUnitSum (dedicated_member_update exDB2 ⟨some false⟩ "w1"
        (BVal.dict [("u1", BVal.num 7)]) 7).1.arbetsplatser "u1" = 7 := by
  exact ⟨rfl, rfl, rfl⟩

/-- C2 amended: mutation handlers leave `needs_recalculation`
untouched; the only writer that sets it to `true` is the sidebar
"Uppdatera data" button in `app.py`, which also drops both cache keys.
(A fresh session reads the absent flag as `true`.) -/
theorem flag_only_set_by_refresh_button (db : DB) (session : Session)
    (apId : String) (nya : BVal) (total : Int)
    (s : CacheSession × Session) :
    (dedicated_member_update db session apId nya total).2 = session
    ∧ (uppdatera_data_button s).2.needs_recalculation = some true
    ∧ (uppdatera_data_button s).1.cached_data = none
    ∧ (uppdatera_data_button s).1.cached_indexes = none := by
  exact ⟨rfl, rfl, rfl, rfl⟩

/-! ## Failed reloads (C9) -/

/-- C9 counterexample: with a snapshot in memory and a Store whose
reads raise, `refresh_cache` fails — but only after deleting both
session keys, so the previously cached snapshot does not survive the
failed reload. -/
theorem failed_refresh_empties_cache :
    exSession0.cached_data = some exSnap0
    ∧ (refresh_cache exStoreFail exSession0).result
        = .error "StoreUnavailable"
    ∧ (refresh_cache exStoreFail exSession0).session.cached_data = none
    ∧ (refresh_cache exStoreFail exSession0).session.cached_indexes = none := by
  exact ⟨rfl, rfl, rfl, rfl⟩

/-- C9 amended: a reload that fails inside `get_cached_data` leaves
the session exactly as it was (the assignment never executes), but
`refresh_cache` deletes snapshot and indexes before re-reading, so its
failure leaves the cache empty — discarded wholesale, not partially
overwritten, and not preserved. -/
theorem failed_load_behavior (store : Store) (s : CacheSession) (b : Bool)
    (hfail : store.readsFail = true) :
    (get_cached_data store b s).session = s
    ∧ (refresh_cache store s).session = ⟨none, none⟩ := by
  have hl : load_base_data store = .error "StoreUnavailable" := by
    unfold load_base_data
    rw [if_pos hfail]
  constructor
  · unfold get_cached_data
    by_cases hb : (b || s.cached_data.isNone) = true
    · rw [if_pos hb, hl]
    · rw [if_neg hb]
      cases hcd : s.cached_data with
      | none => rfl
      | some d =>
          cases hci : s.cached_indexes with
          | none => rfl
          | some i => rfl
  · unfold refresh_cache get_cached_data
    rw [hl]
    rfl

theorem failed_load_behavior_witness :
    (get_cached_data exStoreFail false exSession0).session = exSession0
    ∧ (refresh_cache exStoreFail exSession0).session = ⟨none, none⟩ :=
  failed_load_behavior exStoreFail exSession0 false rfl

end Fack
